import Mathlib

/-!
# Verification of the fluxion actor runtime (stevehayles/fluxion)

A shallow embedding of the parts of the repository relevant to the frozen
claims, together with theorems settling each claim.

The embedding covers two iterations present in the source tree:

* the current facade `Fluxion` (src/fluxion/src/fluxion.rs), which keeps a
  name → id `BTreeMap` next to an underlying `slacktor` registry (the
  `slacktor` crate itself is not under src/, so its registry is modelled
  from the spec, see `Slacktor` below);
* the older `System` / `ActorSupervisor` iteration
  (src/src/system/mod.rs, src/src/actor/supervisor.rs), whose registry maps
  string ids to type-erased handles and whose supervisor selects over a
  mailbox channel and a shutdown broadcast channel.

Rust `u64` / `usize` values are modelled as `Nat`; the platform's
`usize::MAX` is an explicit parameter `usizeMax` where the code performs a
fallible `u64 → usize` conversion.  Runtime type identity (`Any` downcasts)
is modelled by a `Nat` type tag carried by each type-erased entry.
-/

namespace Fluxion

/-- A half-open interval check is not needed; ids are plain `Nat`s.
An actor value as seen by the registry: `tag` models the concrete Rust
type of the actor (used by `Any` downcasts of `ActorWrapper<A, D>`), and
`val` distinguishes individual actor values of the same type. -/
structure Entry where
  tag : Nat
  val : Nat
  deriving DecidableEq, Repr

/-- Modelled from the spec: the `slacktor` registry used by `Fluxion`
(src/fluxion/src/fluxion.rs) is an external crate not under src/.  Per the
spec, §3 "ActorId": ids are dense integers "monotonically allocated from a
per-system counter"; an id "is never reused within the lifetime of the
system even after the actor is killed" (invariant I1).  So the model keeps
a `nextId` counter and an association list of live entries. -/
structure Slacktor where
  nextId : Nat
  entries : List (Nat × Entry)
  deriving DecidableEq, Repr

/-- Modelled from the spec: `Slacktor::new()` — the empty registry. -/
def Slacktor.new : Slacktor := ⟨0, []⟩

/-- Modelled from the spec: `Slacktor::next_id()` returns the id the next
spawn will use (the per-system counter, spec §3). -/
def Slacktor.next_id (s : Slacktor) : Nat := s.nextId

/-- Modelled from the spec: `Slacktor::spawn(actor)` installs the entry
under the next id and bumps the counter (spec §4.6 `add`: "allocates next
id, installs entry"). -/
def Slacktor.spawn (s : Slacktor) (e : Entry) : Slacktor :=
  ⟨s.nextId + 1, s.entries ++ [(s.nextId, e)]⟩

/-- Modelled from the spec: `Slacktor::kill(id)` removes the entry from
the id map (spec §4.6 `kill`: "acquire write, remove from `ids`, drop the
entry").  A missing id is a silent success (spec §4.8). -/
def Slacktor.kill (s : Slacktor) (id : Nat) : Slacktor :=
  ⟨s.nextId, s.entries.filter (fun p => p.1 ≠ id)⟩

/-- Modelled from the spec: `Slacktor::shrink()` releases unused memory.
Since ids are never reused within the lifetime of the system (spec §3,
invariant I1), shrinking has no observable effect on the registry's
logical contents. -/
def Slacktor.shrink (s : Slacktor) : Slacktor := s

/-- Lookup by id in the registry's association list. -/
def Slacktor.lookup (l : List (Nat × Entry)) (id : Nat) : Option Entry :=
  match l with
  | [] => none
  | (k, e) :: rest => if k = id then some e else Slacktor.lookup rest id

/-- Modelled from the spec: `Slacktor::get::<ActorWrapper<A, D>>(id)`
looks the id up in the id map and recovers the typed handle by a runtime
downcast (spec §3 "a downcast vtable sufficient to recover a typed
sender", §9 "Typed retrieval performs a runtime downcast …; on mismatch,
`get_local` returns `None`").  The downcast succeeds exactly when the
stored entry's concrete type tag matches the requested one. -/
def Slacktor.get (s : Slacktor) (tag : Nat) (id : Nat) : Option Entry :=
  match Slacktor.lookup s.entries id with
  | none => none
  | some e => if e.tag = tag then some e else none

/-- Modelled from the spec: `Slacktor::shutdown()` issues shutdown to
every entry and then clears the map (spec §4.6 `shutdown`: "take ownership
of all entries, issue shutdown to each, … then clear both maps" — the
name map lives in `Fluxion`, not in `slacktor`, so only the id map is
cleared here).  The counter survives: ids are per-system-lifetime. -/
def Slacktor.shutdown (s : Slacktor) : Slacktor := ⟨s.nextId, []⟩

/-- An actor value handed to `add`/`add_named`
(src/fluxion/src/fluxion.rs).  `initResult` is the outcome of its
`initialize()` hook: `none` for success, `some e` for the actor's custom
error `e` (errors are modelled as `Nat`).  `tag`/`val` as in `Entry`. -/
structure ActorSpec where
  initResult : Option Nat
  tag : Nat
  val : Nat
  deriving DecidableEq, Repr

/-- The error type of `Fluxion::add`/`add_named`.  The code
(src/fluxion/src/fluxion.rs) only ever produces the actor's own
initialization error (`Result<u64, A::Error>`).  The `systemGone`
constructor is modelled from the spec (§7 "SystemError::SystemGone:
operation attempted after shutdown") so that the claim about it can be
stated; the source contains no such variant. -/
inductive AddError where
  | actorInitError (e : Nat)
  | systemGone
  deriving DecidableEq, Repr

/-- The association list backing the name → id `BTreeMap`
(`actor_ids` in src/fluxion/src/fluxion.rs). -/
def NameMap := List (String × Nat)
  deriving DecidableEq

/-- `BTreeMap::insert`: replace the binding for `k` if present, otherwise
append it. -/
def NameMap.insert (m : NameMap) (k : String) (v : Nat) : NameMap :=
  match m with
  | [] => [(k, v)]
  | (k', v') :: rest =>
      if k' = k then (k, v) :: rest else (k', v') :: NameMap.insert rest k v

/-- `BTreeMap::get`: first (and, by construction, only) binding for `k`. -/
def NameMap.get? (m : NameMap) (k : String) : Option Nat :=
  match m with
  | [] => none
  | (k', v) :: rest => if k' = k then some v else NameMap.get? rest k

/-- The state of a `Fluxion` instance (src/fluxion/src/fluxion.rs):
the underlying slacktor registry plus the name → id map.  The system id
and delegate fields play no role in the claims' operations and are
omitted from the state (the delegate is passed explicitly to `get`). -/
structure State where
  slacktor : Slacktor
  actor_ids : NameMap
  deriving DecidableEq

/-- `Fluxion::new`: fresh registry, empty name map. -/
def State.new : State := ⟨Slacktor.new, []⟩

/-- `Fluxion::get_actor_id(name)` (src/fluxion/src/fluxion.rs, lines
61–66): read the name map. -/
def State.get_actor_id (s : State) (name : String) : Option Nat :=
  NameMap.get? s.actor_ids name

/-- `Fluxion::add(actor)` (src/fluxion/src/fluxion.rs, lines 106–128):
run `initialize()` first; on error, return it without touching any state.
Otherwise spawn the wrapped actor on the slacktor instance and return the
allocated id.  The state is threaded explicitly: the second component is
the state after the call. -/
def State.add (s : State) (a : ActorSpec) : Except AddError Nat × State :=
  match a.initResult with
  | some e => (.error (.actorInitError e), s)
  | none =>
      let id := s.slacktor.next_id
      (.ok id, { s with slacktor := s.slacktor.spawn ⟨a.tag, a.val⟩ })

/-- `Fluxion::add_named(name, actor)` (src/fluxion/src/fluxion.rs, lines
84–94): `add`, then insert the name binding; on error the name is not
assigned. -/
def State.add_named (s : State) (name : String) (a : ActorSpec) :
    Except AddError Nat × State :=
  match s.add a with
  | (.error e, s') => (.error e, s')
  | (.ok id, s') =>
      (.ok id, { s' with actor_ids := NameMap.insert s'.actor_ids name id })

/-- `Fluxion::kill(id)` (src/fluxion/src/fluxion.rs, lines 137–152):
if the `u64 → usize` conversion fails (`id > usize::MAX`), return
silently; otherwise kill the id on the slacktor instance and shrink it.
The name map is not touched. -/
def State.kill (usizeMax : Nat) (s : State) (id : Nat) : State :=
  if usizeMax < id then s
  else { s with slacktor := (s.slacktor.kill id).shrink }

/-- The `LocalRef(handle, id)` returned by `Fluxion::get_local`
(src/fluxion/src/references.rs is not under src/; the pair structure is
taken from the construction site in src/fluxion/src/fluxion.rs line
166). -/
structure LocalRef where
  entry : Entry
  id : Nat
  deriving DecidableEq, Repr

/-- `Fluxion::get_local::<A>(id)` (src/fluxion/src/fluxion.rs, lines
159–167): on `u64 → usize` overflow return `None`; otherwise look the id
up in the slacktor registry, downcasting to the requested actor type
`tag`. -/
def State.get_local (usizeMax : Nat) (s : State) (tag : Nat) (id : Nat) :
    Option LocalRef :=
  if usizeMax < id then none
  else (s.slacktor.get tag id).map (fun e => ⟨e, id⟩)

/-- The `Identifier` enum (spec §3; src/fluxion/src/identifiers.rs is not
under src/ — the variants are those matched by `Fluxion::get`). -/
inductive Identifier where
  | Local (id : Nat)
  | LocalNamed (name : String)
  | Foreign (system : String) (id : Nat)
  | ForeignNamed (system : String) (name : String)
  deriving DecidableEq, Repr

/-- A message sender as returned by `Fluxion::get`: either a local
reference or whatever the delegate produced for a foreign identifier. -/
inductive SenderRef where
  | localSender (r : LocalRef)
  | foreignSender (token : Nat)
  deriving DecidableEq, Repr

/-- `Fluxion::get::<A, M>(id)` (src/fluxion/src/fluxion.rs, lines
172–198): `Local` goes through `get_local`; `LocalNamed` resolves the
name through `get_actor_id` and then goes through `get_local`; other
identifiers are handed to the delegate (`delegate.get_actor`), which is
abstract and passed as a function. -/
def State.get (usizeMax : Nat) (s : State)
    (delegate : Identifier → Option SenderRef) (tag : Nat)
    (i : Identifier) : Option SenderRef :=
  match i with
  | .Local id => (s.get_local usizeMax tag id).map .localSender
  | .LocalNamed name =>
      match s.get_actor_id name with
      | none => none
      | some id => (s.get_local usizeMax tag id).map .localSender
  | i => delegate i

/-- `Fluxion::shutdown()` (src/fluxion/src/fluxion.rs, lines 229–239):
shut the slacktor instance down.  Nothing else in the `Fluxion` state is
touched — in particular there is no "shutting-down" flag and the
`actor_ids` map survives. -/
def State.shutdown (s : State) : State :=
  { s with slacktor := s.slacktor.shutdown }

/-- One operation of a client-visible trace against a `Fluxion` system,
for stating lifetime properties of returned ids. -/
inductive Op where
  | add (a : ActorSpec)
  | addNamed (name : String) (a : ActorSpec)
  | kill (id : Nat)
  deriving DecidableEq, Repr

/-- Run a sequence of operations, collecting the ids returned by
successful `add`/`add_named` calls in order. -/
def runOps (usizeMax : Nat) (s : State) : List Op → State × List Nat
  | [] => (s, [])
  | op :: rest =>
      let (s', ids) :=
        match op with
        | .add a =>
            match s.add a with
            | (.ok id, s') => (s', [id])
            | (.error _, s') => (s', ([] : List Nat))
        | .addNamed n a =>
            match s.add_named n a with
            | (.ok id, s') => (s', [id])
            | (.error _, s') => (s', ([] : List Nat))
        | .kill id => (s.kill usizeMax id, ([] : List Nat))
      let (sf, idsRest) := runOps usizeMax s' rest
      (sf, ids ++ idsRest)

end Fluxion

namespace OldSystem

/-!
The older iteration's registry (src/src/system/mod.rs).  Actors are keyed
by string ids; entries are type-erased boxes whose concrete type is
`LocalHandle<F, M>` for the message type `M` the actor was registered
with.  We model the build without the `foreign` feature: `get_actor`
then has no foreign-handle branch and the path is the raw id string.
The concrete `LocalHandle<F, M>` type is modelled by its `Nat` type tag
`msgTag`; `ActorHandle::as_any` / `downcast_ref::<LocalHandle<F, M>>`
(src/src/handle.rs lines 61–65, src/src/system/mod.rs lines 363–373)
succeeds exactly when the stored tag equals the requested one.
-/

/-- A type-erased registry entry: the concrete type tag of the stored
`LocalHandle<F, M>` plus a value distinguishing individual handles. -/
structure Handle where
  msgTag : Nat
  val : Nat
  deriving DecidableEq, Repr

/-- The actor map of `System` (src/src/system/mod.rs line 93), keyed by
the string id. -/
def Actors := List (String × Handle)
  deriving DecidableEq

/-- `HashMap::get` on the actor map. -/
def Actors.get? (m : Actors) (k : String) : Option Handle :=
  match m with
  | [] => none
  | (k', v) :: rest => if k' = k then some v else Actors.get? rest k

/-- `System::get_actor::<M>(id)` (src/src/system/mod.rs lines 326–374,
`foreign` feature disabled): look the id up in the actor map, then
downcast the type-erased handle to the concrete `LocalHandle<F, M>` via
`as_any().downcast_ref()`; return `None` when the downcast fails. -/
def get_actor (actors : Actors) (msgTag : Nat) (id : String) :
    Option Handle :=
  match Actors.get? actors id with
  | none => none
  | some h => if h.msgTag = msgTag then some h else none

end OldSystem

namespace Supervisor

/-!
The older iteration's supervisor loop (src/src/actor/supervisor.rs,
`ActorSupervisor::run`, lines 209–217 of the main loop).  The loop
`tokio::select!`s over two channels:

* `self.shutdown.recv()` — a broadcast channel sent to by
  `System::shutdown`; when it fires the loop `break`s immediately;
* `self.message.recv()` — the mpsc mailbox; a received message is
  handled and, if a responder is attached, answered.

`tokio::select!` picks among the *ready* branches nondeterministically,
so the loop is modelled as a step relation: with a shutdown signal
pending the supervisor may exit at once, and with a non-empty mailbox it
may handle the head message.  Messages are modelled as `Nat`s; handling
appends the message to `handled` (the error-policy and notification
machinery does not affect which envelope is consumed next and, under the
default policy, a handled message never breaks the loop).
-/

/-- The observable state of one supervisor: its pending mailbox in
arrival order, whether a shutdown broadcast is waiting to be received,
the messages handled so far, and whether the main loop has exited. -/
structure SupState where
  mailbox : List Nat
  shutdownPending : Bool
  handled : List Nat
  exited : Bool
  deriving DecidableEq, Repr

/-- One iteration of the `tokio::select!` loop in
`ActorSupervisor::run`: either the shutdown branch fires (possible
whenever the broadcast has a pending signal) and the loop breaks, or the
message branch fires (possible whenever the mailbox is non-empty) and
the head message is handled. -/
inductive Step : SupState → SupState → Prop
  | shutdown (s : SupState) (hpend : s.shutdownPending = true)
      (hrun : s.exited = false) :
      Step s ⟨s.mailbox, false, s.handled, true⟩
  | message (s : SupState) (m : Nat) (rest : List Nat)
      (hmail : s.mailbox = m :: rest) (hrun : s.exited = false) :
      Step s ⟨rest, s.shutdownPending, s.handled ++ [m], s.exited⟩

/-- Finitely many loop iterations. -/
inductive Run : SupState → SupState → Prop
  | refl (s : SupState) : Run s s
  | tail {s t u : SupState} : Run s t → Step t u → Run s u

end Supervisor

namespace ForeignMessenger

/-!
The foreign-message sending path of the older iteration
(src/src/message/foreign.rs, `ForeignMessenger::send_message_foreign`,
lines 93–128) and `System::can_send_foreign`
(src/src/system/mod.rs lines 120–123).
-/

/-- The `ActorError` variants reachable from `send_message_foreign`
(src/src/error, via the uses in src/src/message/foreign.rs). -/
inductive ActorErr where
  | ForeignSendFail
  | ForeignRespondFailed
  | ForeignResponseUnexpected
  | ForeignResponseRelayFail
  deriving DecidableEq, Repr

/-- A type-erased `Box<DynMessageResponse>`: a runtime type tag plus a
value.  `downcast_ref::<T>` succeeds exactly when the tag matches. -/
structure DynValue where
  tag : Nat
  val : Nat
  deriving DecidableEq, Repr

/-- The observable outcome of one `send_message_foreign` call:
its return value, the foreign message handed to `send_raw_foreign` (if
any), and whether the caller's response one-shot (`responder`) was
signalled with a value. -/
structure Outcome where
  result : Except ActorErr Unit
  rawSent : Option DynValue
  responderSignalled : Bool
  deriving Repr

/-- `System::can_send_foreign` (src/src/system/mod.rs lines 120–123):
true iff the foreign receiver has already been taken out of the
`Option` by `get_foreign` — i.e. someone is listening. -/
def can_send_foreign (foreign_reciever : Option Unit) : Bool :=
  foreign_reciever.isNone

/-- `ForeignMessenger::send_message_foreign` (src/src/message/foreign.rs
lines 93–128), with its environment made explicit:

* `canSend` — the value of `self.can_send_foreign()`;
* `sendRawOk` — whether `self.send_raw_foreign` succeeds (it fails with
  `ForeignSendFail` when the channel is closed);
* `msg` — the message being sent, as a tagged dynamic value
  (`Box::new(message)`);
* `hasResponder` — whether the caller supplied a responder one-shot;
* `respTag` — the runtime type tag of `M::Response`;
* `foreignReply` — what the foreign side eventually puts into the
  internal response one-shot (`none` models the sender being dropped).

The translation follows the source line by line: build the foreign
message; if `can_send_foreign()` then `send_raw_foreign` (propagating
its error), **else return `Ok(())` immediately**; then, if a responder
was supplied, await the internal one-shot, downcast the reply, and relay
it to the caller's responder. -/
def send_message_foreign (canSend : Bool) (sendRawOk : Bool)
    (msg : DynValue) (hasResponder : Bool) (respTag : Nat)
    (foreignReply : Option DynValue) : Outcome :=
  if canSend then
    if sendRawOk then
      if hasResponder then
        match foreignReply with
        | none => ⟨.error .ForeignRespondFailed, some msg, false⟩
        | some r =>
            if r.tag = respTag then ⟨.ok (), some msg, true⟩
            else ⟨.error .ForeignResponseUnexpected, some msg, false⟩
      else ⟨.ok (), some msg, false⟩
    else ⟨.error .ForeignSendFail, some msg, false⟩
  else ⟨.ok (), none, false⟩

end ForeignMessenger

namespace Fluxion

theorem add_init_error (s : State) (a : ActorSpec) (e : Nat)
    (h : a.initResult = some e) :
    s.add a = (.error (.actorInitError e), s) := by
  simp [State.add, h]

theorem add_init_ok (s : State) (a : ActorSpec) (h : a.initResult = none) :
    s.add a =
      (.ok s.slacktor.nextId,
        ⟨s.slacktor.spawn ⟨a.tag, a.val⟩, s.actor_ids⟩) := by
  simp [State.add, h, Slacktor.next_id]

theorem add_named_init_error (s : State) (n : String) (a : ActorSpec)
    (e : Nat) (h : a.initResult = some e) :
    s.add_named n a = (.error (.actorInitError e), s) := by
  simp [State.add_named, add_init_error s a e h]

theorem add_named_init_ok (s : State) (n : String) (a : ActorSpec)
    (h : a.initResult = none) :
    s.add_named n a =
      (.ok s.slacktor.nextId,
        ⟨s.slacktor.spawn ⟨a.tag, a.val⟩,
         NameMap.insert s.actor_ids n s.slacktor.nextId⟩) := by
  simp [State.add_named, add_init_ok s a h]

theorem spawn_nextId (s : Slacktor) (e : Entry) :
    (s.spawn e).nextId = s.nextId + 1 := rfl

theorem kill_slacktor_nextId (u : Nat) (s : State) (id : Nat) :
    (State.kill u s id).slacktor.nextId = s.slacktor.nextId := by
  unfold State.kill
  split <;> rfl

theorem kill_actor_ids (u : Nat) (s : State) (id : Nat) :
    (State.kill u s id).actor_ids = s.actor_ids := by
  unfold State.kill
  split <;> rfl

/-- The trace invariant behind id monotonicity: along any operation
sequence, the `nextId` counter never decreases, every returned id lies
in `[nextId before, nextId after)`, and the returned ids are strictly
increasing. -/
theorem runOps_spec (u : Nat) (ops : List Op) : ∀ s : State,
    s.slacktor.nextId ≤ ((runOps u s ops).1).slacktor.nextId ∧
    (∀ i ∈ (runOps u s ops).2,
      s.slacktor.nextId ≤ i ∧ i < ((runOps u s ops).1).slacktor.nextId) ∧
    ((runOps u s ops).2).Pairwise (· < ·) := by
  induction ops with
  | nil => intro s; simp [runOps]
  | cons op rest ih =>
    intro s
    cases op with
    | add a =>
      cases h : a.initResult with
      | some e =>
        simpa [runOps, add_init_error s a e h] using ih s
      | none =>
        have hrec := ih ⟨s.slacktor.spawn ⟨a.tag, a.val⟩, s.actor_ids⟩
        simp only [spawn_nextId] at hrec
        obtain ⟨h1, h2, h3⟩ := hrec
        simp only [runOps, add_init_ok s a h]
        refine ⟨by omega, ?_, ?_⟩
        · intro i hi
          simp only [List.mem_append, List.mem_singleton] at hi
          rcases hi with hi | hi
          · subst hi
            exact ⟨le_refl _, by omega⟩
          · have := h2 i hi
            omega
        · rw [List.pairwise_append]
          refine ⟨List.pairwise_singleton _ _, h3, ?_⟩
          intro x hx y hy
          simp only [List.mem_singleton] at hx
          subst hx
          have := h2 y hy
          omega
    | addNamed n a =>
      cases h : a.initResult with
      | some e =>
        simpa [runOps, add_named_init_error s n a e h] using ih s
      | none =>
        have hrec := ih ⟨s.slacktor.spawn ⟨a.tag, a.val⟩,
          NameMap.insert s.actor_ids n s.slacktor.nextId⟩
        simp only [spawn_nextId] at hrec
        obtain ⟨h1, h2, h3⟩ := hrec
        simp only [runOps, add_named_init_ok s n a h]
        refine ⟨by omega, ?_, ?_⟩
        · intro i hi
          simp only [List.mem_append, List.mem_singleton] at hi
          rcases hi with hi | hi
          · subst hi
            exact ⟨le_refl _, by omega⟩
          · have := h2 i hi
            omega
        · rw [List.pairwise_append]
          refine ⟨List.pairwise_singleton _ _, h3, ?_⟩
          intro x hx y hy
          simp only [List.mem_singleton] at hx
          subst hx
          have := h2 y hy
          omega
    | kill id =>
      have hrec := ih (s.kill u id)
      rw [kill_slacktor_nextId] at hrec
      simpa [runOps] using hrec

/-- C1: for any sequence of `add`/`add_named`/`kill` operations against
one freshly-created system, the ids returned by the successful
`add`/`add_named` calls are strictly increasing (hence pairwise
distinct), and — since ids only ever grow across the whole trace, kills
included — an id returned once is never returned again within the
lifetime of that system, even after the actor bearing it has been killed
via `kill`. -/
theorem returned_ids_strictly_increasing_and_never_reused
    (u : Nat) (ops : List Op) :
    ((runOps u State.new ops).2).Pairwise (· < ·) ∧
    ((runOps u State.new ops).2).Nodup := by
  have h := (runOps_spec u ops State.new).2.2
  exact ⟨h, h.imp Nat.ne_of_lt⟩

end Fluxion

namespace Fluxion

/-- Well-formedness of the registry: every installed id is below the
allocation counter.  Holds for `Slacktor.new` and is preserved by every
operation. -/
def Slacktor.WF (s : Slacktor) : Prop := ∀ p ∈ s.entries, p.1 < s.nextId

theorem Slacktor.WF_new : Slacktor.new.WF := by
  intro p hp
  simp [Slacktor.new] at hp

theorem Slacktor.WF_spawn (s : Slacktor) (e : Entry) (h : s.WF) :
    (s.spawn e).WF := by
  intro p hp
  simp only [Slacktor.spawn, List.mem_append, List.mem_singleton] at hp
  rcases hp with hp | hp
  · exact Nat.lt_succ_of_lt (h p hp)
  · subst hp
    exact Nat.lt_succ_self _

theorem Slacktor.WF_kill (s : Slacktor) (id : Nat) (h : s.WF) :
    (s.kill id).WF := by
  intro p hp
  exact h p (List.mem_of_mem_filter hp)

/-- Lookup distributes over append, preferring the earlier list. -/
theorem Slacktor.lookup_append (l1 l2 : List (Nat × Entry)) (id : Nat) :
    Slacktor.lookup (l1 ++ l2) id =
      match Slacktor.lookup l1 id with
      | some e => some e
      | none => Slacktor.lookup l2 id := by
  induction l1 with
  | nil => simp [Slacktor.lookup]
  | cons p rest ih =>
    obtain ⟨k, e⟩ := p
    by_cases h : k = id <;> simp [Slacktor.lookup, h, ih]

/-- Lookup misses a list all of whose keys are below the id sought. -/
theorem Slacktor.lookup_none_of_keys_lt (l : List (Nat × Entry))
    (k n : Nat) (hlt : ∀ p ∈ l, p.1 < n) (hk : n ≤ k) :
    Slacktor.lookup l k = none := by
  induction l with
  | nil => rfl
  | cons p rest ih =>
    obtain ⟨k0, e⟩ := p
    have h1 := hlt (k0, e) (List.mem_cons_self _ _)
    simp only at h1
    have hne : ¬(k0 = k) := by omega
    simp only [Slacktor.lookup, if_neg hne]
    exact ih (fun q hq => hlt q (List.mem_cons_of_mem _ hq))

/-- Looking up the id just spawned recovers the spawned entry (modulo
the downcast's type check). -/
theorem Slacktor.get_spawn_self (s : Slacktor) (e : Entry) (hwf : s.WF)
    (tag : Nat) :
    (s.spawn e).get tag s.nextId =
      if e.tag = tag then some e else none := by
  unfold Slacktor.get Slacktor.spawn
  simp only [Slacktor.lookup_append,
    Slacktor.lookup_none_of_keys_lt s.entries s.nextId s.nextId hwf (le_refl _)]
  simp [Slacktor.lookup]

/-- Spawning does not disturb lookups of previously-allocated ids. -/
theorem Slacktor.get_spawn_lt (s : Slacktor) (e : Entry) (tag id : Nat)
    (hid : id < s.nextId) :
    (s.spawn e).get tag id = s.get tag id := by
  unfold Slacktor.get Slacktor.spawn
  simp only [Slacktor.lookup_append]
  cases hl : Slacktor.lookup s.entries id with
  | some q => rfl
  | none =>
    have hne : ¬(s.nextId = id) := by omega
    simp [Slacktor.lookup, hne]

/-- Killing an id makes every typed lookup of that id miss. -/
theorem Slacktor.get_kill_self (s : Slacktor) (tag id : Nat) :
    (s.kill id).get tag id = none := by
  unfold Slacktor.get Slacktor.kill
  have : Slacktor.lookup (s.entries.filter (fun p => p.1 ≠ id)) id = none := by
    induction s.entries with
    | nil => rfl
    | cons p rest ih =>
      obtain ⟨k, e⟩ := p
      by_cases h : k = id
      · subst h
        rw [List.filter_cons, if_neg (by simp)]
        exact ih
      · rw [List.filter_cons, if_pos (by simp [h])]
        simp only [Slacktor.lookup, if_neg h]
        exact ih
  rw [this]

/-- Inserting a binding makes its own lookup succeed. -/
theorem NameMap.get?_insert (m : NameMap) (k : String) (v : Nat) :
    (NameMap.insert m k v).get? k = some v := by
  induction m with
  | nil => simp [NameMap.insert, NameMap.get?]
  | cons p rest ih =>
    obtain ⟨k', v'⟩ := p
    by_cases h : k' = k
    · subst h
      simp [NameMap.insert, NameMap.get?]
    · simp [NameMap.insert, NameMap.get?, h, ih]

/-- Inserting a binding does not disturb other names. -/
theorem NameMap.get?_insert_ne (m : NameMap) (k k' : String) (v : Nat)
    (h : k' ≠ k) : (NameMap.insert m k v).get? k' = m.get? k' := by
  induction m with
  | nil =>
    simp only [NameMap.insert, NameMap.get?]
    rw [if_neg (fun hh => h hh.symm)]
  | cons p rest ih =>
    obtain ⟨k0, v0⟩ := p
    by_cases h0 : k0 = k
    · subst h0
      simp only [NameMap.insert, if_pos rfl, NameMap.get?]
      rw [if_neg (fun hh => h hh.symm), if_neg (fun hh => h hh.symm)]
    · simp only [NameMap.insert, if_neg h0, NameMap.get?]
      by_cases h1 : k0 = k'
      · simp [h1]
      · simp [h1, ih]

end Fluxion

namespace Fluxion

/-- Inverting a successful `add_named`: the actor must have initialized
successfully, the returned id is the allocation counter, and the new
state is the spawned registry plus the inserted name binding. -/
theorem add_named_ok_inv (s : State) (n : String) (a : ActorSpec)
    (id : Nat) (s' : State) (h : s.add_named n a = (.ok id, s')) :
    a.initResult = none ∧ id = s.slacktor.nextId ∧
    s' = ⟨s.slacktor.spawn ⟨a.tag, a.val⟩,
          NameMap.insert s.actor_ids n s.slacktor.nextId⟩ := by
  cases ha : a.initResult with
  | some e =>
    rw [add_named_init_error s n a e ha] at h
    exact absurd (congrArg Prod.fst h) (by simp)
  | none =>
    rw [add_named_init_ok s n a ha] at h
    simp only [Prod.mk.injEq, Except.ok.injEq] at h
    exact ⟨rfl, h.1.symm, h.2.symm⟩

/-- C4: when an actor's `initialize()` hook fails with error `e`, both
`add` and `add_named` return exactly that error and leave the system
state (registry and name map alike) unchanged: nothing is spawned, no
id-map entry is installed, and no name binding is inserted. -/
theorem add_init_failure_unchanged (s : State) (n : String)
    (a : ActorSpec) (e : Nat) (h : a.initResult = some e) :
    s.add a = (.error (.actorInitError e), s) ∧
    s.add_named n a = (.error (.actorInitError e), s) :=
  ⟨add_init_error s a e h, add_named_init_error s n a e h⟩

/-- Witness for C4 at a concrete failing actor. -/
theorem add_init_failure_unchanged_witness :
    ((⟨some 7, 1, 2⟩ : ActorSpec).initResult = some 7) ∧
    (State.new.add ⟨some 7, 1, 2⟩ = (.error (.actorInitError 7), State.new) ∧
     State.new.add_named "w" ⟨some 7, 1, 2⟩ =
       (.error (.actorInitError 7), State.new)) :=
  ⟨rfl, add_init_failure_unchanged State.new "w" ⟨some 7, 1, 2⟩ 7 rfl⟩

/-- C7: immediately after `id = add_named(n, a)` succeeds, the name
resolves to the id (`get_actor_id n = some id`) and `get_local id`
returns a live handle to the very actor `a` that was registered. -/
theorem add_named_roundtrip (u : Nat) (s : State) (n : String)
    (a : ActorSpec) (id : Nat) (s' : State) (hwf : s.slacktor.WF)
    (hu : s.slacktor.nextId ≤ u)
    (h : s.add_named n a = (.ok id, s')) :
    s'.get_actor_id n = some id ∧
    s'.get_local u a.tag id = some ⟨⟨a.tag, a.val⟩, id⟩ := by
  obtain ⟨ha, hid, hs⟩ := add_named_ok_inv s n a id s' h
  subst hid
  subst hs
  constructor
  · simp [State.get_actor_id, NameMap.get?_insert]
  · unfold State.get_local
    rw [if_neg (by omega)]
    have : (⟨s.slacktor.spawn ⟨a.tag, a.val⟩,
        NameMap.insert s.actor_ids n s.slacktor.nextId⟩ : State).slacktor
        = s.slacktor.spawn ⟨a.tag, a.val⟩ := rfl
    rw [this, Slacktor.get_spawn_self s.slacktor ⟨a.tag, a.val⟩ hwf a.tag]
    simp

/-- Witness for C7 at a concrete registration. -/
theorem add_named_roundtrip_witness :
    (State.new.slacktor.WF ∧ State.new.slacktor.nextId ≤ 5 ∧
     State.new.add_named "w" ⟨none, 3, 9⟩ =
       (.ok 0, ⟨⟨1, [(0, ⟨3, 9⟩)]⟩, [("w", 0)]⟩)) ∧
    ((⟨⟨1, [(0, ⟨3, 9⟩)]⟩, [("w", 0)]⟩ : State).get_actor_id "w" = some 0 ∧
     (⟨⟨1, [(0, ⟨3, 9⟩)]⟩, [("w", 0)]⟩ : State).get_local 5 3 0 =
       some ⟨⟨3, 9⟩, 0⟩) :=
  ⟨⟨Slacktor.WF_new, by decide, rfl⟩,
   add_named_roundtrip 5 State.new "w" ⟨none, 3, 9⟩ 0 _ Slacktor.WF_new
     (by decide) rfl⟩

end Fluxion


namespace Fluxion

theorem State.mk_slacktor (sl : Slacktor) (m : NameMap) :
    (⟨sl, m⟩ : State).slacktor = sl := rfl

theorem State.mk_actor_ids (sl : Slacktor) (m : NameMap) :
    (⟨sl, m⟩ : State).actor_ids = m := rfl

theorem get_actor_id_mk (sl : Slacktor) (m : NameMap) (n : String) :
    State.get_actor_id ⟨sl, m⟩ n = m.get? n := rfl

theorem get_local_mk (u : Nat) (sl : Slacktor) (m : NameMap)
    (tag id : Nat) :
    State.get_local u ⟨sl, m⟩ tag id =
      if u < id then none
      else (sl.get tag id).map (fun e => ⟨e, id⟩) := rfl

theorem kill_mk (u : Nat) (sl : Slacktor) (m : NameMap) (id : Nat) :
    State.kill u ⟨sl, m⟩ id =
      if u < id then ⟨sl, m⟩ else ⟨(sl.kill id).shrink, m⟩ := by
  unfold State.kill
  split <;> rfl

theorem get_localNamed (u : Nat) (s : State)
    (delegate : Identifier → Option SenderRef) (tag : Nat) (n : String) :
    s.get u delegate tag (.LocalNamed n) =
      match s.get_actor_id n with
      | none => none
      | some id => (s.get_local u tag id).map .localSender := rfl

/-- C6: registering `a1` and then `a2` under the same name both succeed;
the name silently rebinds to `a2`'s id, and the displaced actor `a1` is
not killed: it stays in the registry and remains reachable through its
own id, just as `a2` is through its id. -/
theorem add_named_overwrite_keeps_both (u : Nat) (s : State) (n : String)
    (a1 a2 : ActorSpec) (id1 id2 : Nat) (s1 s2 : State)
    (hwf : s.slacktor.WF) (hu : s.slacktor.nextId + 1 ≤ u)
    (h1 : s.add_named n a1 = (.ok id1, s1))
    (h2 : s1.add_named n a2 = (.ok id2, s2)) :
    id1 ≠ id2 ∧
    s2.get_actor_id n = some id2 ∧
    s2.get_local u a1.tag id1 = some ⟨⟨a1.tag, a1.val⟩, id1⟩ ∧
    s2.get_local u a2.tag id2 = some ⟨⟨a2.tag, a2.val⟩, id2⟩ := by
  obtain ⟨ha1, hid1, hs1⟩ := add_named_ok_inv s n a1 id1 s1 h1
  subst hid1
  subst hs1
  obtain ⟨ha2, hid2, hs2⟩ := add_named_ok_inv _ n a2 id2 s2 h2
  simp only [State.mk_slacktor, State.mk_actor_ids, spawn_nextId]
    at hid2 hs2
  subst hid2
  subst hs2
  have hself2 := Slacktor.get_spawn_self (s.slacktor.spawn ⟨a1.tag, a1.val⟩)
    ⟨a2.tag, a2.val⟩ (Slacktor.WF_spawn s.slacktor ⟨a1.tag, a1.val⟩ hwf) a2.tag
  rw [spawn_nextId] at hself2
  have hlt : s.slacktor.nextId < (s.slacktor.spawn ⟨a1.tag, a1.val⟩).nextId := by
    rw [spawn_nextId]
    omega
  refine ⟨by omega, ?_, ?_, ?_⟩
  · rw [get_actor_id_mk]
    exact NameMap.get?_insert _ _ _
  · rw [get_local_mk, if_neg (by omega),
      Slacktor.get_spawn_lt _ ⟨a2.tag, a2.val⟩ a1.tag s.slacktor.nextId hlt,
      Slacktor.get_spawn_self s.slacktor ⟨a1.tag, a1.val⟩ hwf a1.tag]
    simp
  · rw [get_local_mk, if_neg (by omega), hself2]
    simp

/-- Witness for C6 at a concrete pair of registrations. -/
theorem add_named_overwrite_keeps_both_witness :
    (State.new.slacktor.WF ∧ State.new.slacktor.nextId + 1 ≤ 5 ∧
     State.new.add_named "w" ⟨none, 1, 10⟩ =
       (.ok 0, ⟨⟨1, [(0, ⟨1, 10⟩)]⟩, [("w", 0)]⟩) ∧
     (⟨⟨1, [(0, ⟨1, 10⟩)]⟩, [("w", 0)]⟩ : State).add_named "w" ⟨none, 2, 20⟩ =
       (.ok 1, ⟨⟨2, [(0, ⟨1, 10⟩), (1, ⟨2, 20⟩)]⟩, [("w", 1)]⟩)) ∧
    ((0 : Nat) ≠ 1 ∧
     (⟨⟨2, [(0, ⟨1, 10⟩), (1, ⟨2, 20⟩)]⟩, [("w", 1)]⟩ : State).get_actor_id "w"
       = some 1 ∧
     (⟨⟨2, [(0, ⟨1, 10⟩), (1, ⟨2, 20⟩)]⟩, [("w", 1)]⟩ : State).get_local 5 1 0
       = some ⟨⟨1, 10⟩, 0⟩ ∧
     (⟨⟨2, [(0, ⟨1, 10⟩), (1, ⟨2, 20⟩)]⟩, [("w", 1)]⟩ : State).get_local 5 2 1
       = some ⟨⟨2, 20⟩, 1⟩) :=
  ⟨⟨Slacktor.WF_new, by decide, rfl, rfl⟩,
   add_named_overwrite_keeps_both 5 State.new "w" ⟨none, 1, 10⟩ ⟨none, 2, 20⟩
     0 1 _ _ Slacktor.WF_new (by decide) rfl rfl⟩

/-- C5: killing the actor registered under a name leaves the name → id
map untouched (`get_actor_id` still answers the dead id), while id-based
lookups re-verify against the id map and miss: `get_local id` is `None`
and `get` through the `LocalNamed` identifier is `None`. -/
theorem kill_preserves_name_map (u : Nat) (s : State) (n : String)
    (a : ActorSpec) (id : Nat) (s1 : State)
    (delegate : Identifier → Option SenderRef)
    (hu : id ≤ u) (h : s.add_named n a = (.ok id, s1)) :
    (s1.kill u id).actor_ids = s1.actor_ids ∧
    (s1.kill u id).get_actor_id n = some id ∧
    (s1.kill u id).get_local u a.tag id = none ∧
    (s1.kill u id).get u delegate a.tag (.LocalNamed n) = none := by
  obtain ⟨ha, hid, hs⟩ := add_named_ok_inv s n a id s1 h
  subst hid
  subst hs
  rw [kill_mk, if_neg (by omega)]
  have hgetid : (⟨((s.slacktor.spawn ⟨a.tag, a.val⟩).kill s.slacktor.nextId).shrink,
      NameMap.insert s.actor_ids n s.slacktor.nextId⟩ : State).get_actor_id n
      = some s.slacktor.nextId := by
    rw [get_actor_id_mk]
    exact NameMap.get?_insert _ _ _
  have hgetlocal : (⟨((s.slacktor.spawn ⟨a.tag, a.val⟩).kill s.slacktor.nextId).shrink,
      NameMap.insert s.actor_ids n s.slacktor.nextId⟩ : State).get_local
        u a.tag s.slacktor.nextId = none := by
    rw [get_local_mk, if_neg (by omega)]
    rw [show ((s.slacktor.spawn ⟨a.tag, a.val⟩).kill s.slacktor.nextId).shrink
        = (s.slacktor.spawn ⟨a.tag, a.val⟩).kill s.slacktor.nextId from rfl]
    rw [Slacktor.get_kill_self]
    rfl
  refine ⟨rfl, hgetid, hgetlocal, ?_⟩
  rw [get_localNamed, hgetid]
  dsimp only
  rw [hgetlocal]
  rfl

/-- Witness for C5 at a concrete kill. -/
theorem kill_preserves_name_map_witness :
    ((0 : Nat) ≤ 5 ∧
     State.new.add_named "w" ⟨none, 3, 9⟩ =
       (.ok 0, ⟨⟨1, [(0, ⟨3, 9⟩)]⟩, [("w", 0)]⟩)) ∧
    (((⟨⟨1, [(0, ⟨3, 9⟩)]⟩, [("w", 0)]⟩ : State).kill 5 0).actor_ids =
       (⟨⟨1, [(0, ⟨3, 9⟩)]⟩, [("w", 0)]⟩ : State).actor_ids ∧
     ((⟨⟨1, [(0, ⟨3, 9⟩)]⟩, [("w", 0)]⟩ : State).kill 5 0).get_actor_id "w" =
       some 0 ∧
     ((⟨⟨1, [(0, ⟨3, 9⟩)]⟩, [("w", 0)]⟩ : State).kill 5 0).get_local 5 3 0 =
       none ∧
     ((⟨⟨1, [(0, ⟨3, 9⟩)]⟩, [("w", 0)]⟩ : State).kill 5 0).get 5
       (fun _ => none) 3 (.LocalNamed "w") = none) :=
  ⟨⟨by decide, rfl⟩,
   kill_preserves_name_map 5 State.new "w" ⟨none, 3, 9⟩ 0 _ (fun _ => none)
     (by decide) rfl⟩

end Fluxion

namespace Fluxion

/-- C2 counterexample: on a concrete system, add one actor, call
`shutdown()`, then call `add` again.  The second `add` succeeds with a
fresh id — it does not return the `SystemGone` error the claim
requires.  (The source has no shutting-down state at all: `Fluxion`'s
error type carries only the actor's own initialization error, and
`System::shutdown`'s documentation in src/src/system/mod.rs says "Even
after calling this function, actors can still be added to the
system".) -/
theorem shutdown_add_still_succeeds_counterexample :
    ((((State.new.add ⟨none, 1, 10⟩).2).shutdown).add ⟨none, 2, 20⟩).1
      = .ok 1 ∧
    ((((State.new.add ⟨none, 1, 10⟩).2).shutdown).add ⟨none, 2, 20⟩).1
      ≠ .error .systemGone := by
  refine ⟨rfl, ?_⟩
  rw [show ((((State.new.add ⟨none, 1, 10⟩).2).shutdown).add ⟨none, 2, 20⟩).1
    = (.ok 1 : Except AddError Nat) from rfl]
  intro h
  exact Except.noConfusion h

/-- C2 (amended): `shutdown()` empties the registry — afterwards
`get_local` (and hence local `get`) returns `None` for every id — but
the system is *not* closed: a subsequent `add` (or `add_named`) on an
actor that initializes successfully still succeeds, returning a fresh
id rather than a `SystemGone` error, and the name map even survives the
shutdown.  No irreversible shutting-down state exists in the code. -/
theorem shutdown_leaves_system_operating (u : Nat) (s : State)
    (a : ActorSpec) (delegate : Identifier → Option SenderRef)
    (tag id : Nat) (ha : a.initResult = none) :
    ((s.shutdown).add a).1 = .ok s.slacktor.nextId ∧
    (s.shutdown).get_local u tag id = none ∧
    (s.shutdown).get u delegate tag (.Local id) = none ∧
    (s.shutdown).actor_ids = s.actor_ids := by
  have hgl : (s.shutdown).get_local u tag id = none := by
    unfold State.get_local
    split
    · rfl
    · rw [show (s.shutdown).slacktor = ⟨s.slacktor.nextId, []⟩ from rfl]
      rfl
  refine ⟨?_, hgl, ?_, rfl⟩
  · simp [State.shutdown, Slacktor.shutdown, State.add, ha, Slacktor.next_id]
  · rw [show (s.shutdown).get u delegate tag (.Local id)
      = ((s.shutdown).get_local u tag id).map .localSender from rfl, hgl]
    rfl

/-- Witness for the amended C2 at a concrete post-shutdown state. -/
theorem shutdown_leaves_system_operating_witness :
    ((⟨none, 1, 10⟩ : ActorSpec).initResult = none) ∧
    ((((State.new.add ⟨none, 1, 10⟩).2).shutdown.add ⟨none, 1, 10⟩).1
       = .ok (State.new.add ⟨none, 1, 10⟩).2.slacktor.nextId ∧
     ((State.new.add ⟨none, 1, 10⟩).2).shutdown.get_local 9 1 0 = none ∧
     ((State.new.add ⟨none, 1, 10⟩).2).shutdown.get 9 (fun _ => none) 1
       (.Local 0) = none ∧
     ((State.new.add ⟨none, 1, 10⟩).2).shutdown.actor_ids
       = (State.new.add ⟨none, 1, 10⟩).2.actor_ids) :=
  ⟨rfl, shutdown_leaves_system_operating 9 (State.new.add ⟨none, 1, 10⟩).2
    ⟨none, 1, 10⟩ (fun _ => none) 1 0 rfl⟩

/-- C9: for an id whose value exceeds the platform's `usize::MAX` (so
`u64 → usize` conversion fails), `get_local` returns `None` and `kill`
returns with the state untouched; both are total, so neither panics. -/
theorem oversized_id_safe (u : Nat) (s : State) (tag id : Nat)
    (h : u < id) :
    s.get_local u tag id = none ∧ s.kill u id = s := by
  constructor
  · unfold State.get_local
    rw [if_pos h]
  · unfold State.kill
    rw [if_pos h]

/-- Witness for C9 on a 32-bit platform bound. -/
theorem oversized_id_safe_witness :
    (4294967295 : Nat) < 4294967296 ∧
    (State.new.get_local 4294967295 0 4294967296 = none ∧
     State.new.kill 4294967295 4294967296 = State.new) :=
  ⟨by decide, oversized_id_safe 4294967295 State.new 0 4294967296 (by decide)⟩

/-- C8: typed retrieval is runtime-type-safe, in both iterations.  In
the old `System::get_actor`, when the stored entry is not of the
requested concrete type the downcast fails and the result is `None`,
and any returned handle has exactly the requested type.  Likewise in
`Fluxion::get_local` through the slacktor registry's typed `get`. -/
theorem typed_retrieval_type_safe (actors : OldSystem.Actors)
    (sid : String) (h : OldSystem.Handle) (mtag : Nat)
    (u : Nat) (s : State) (tag id : Nat) :
    (OldSystem.Actors.get? actors sid = some h → h.msgTag ≠ mtag →
      OldSystem.get_actor actors mtag sid = none) ∧
    (∀ h', OldSystem.get_actor actors mtag sid = some h' →
      h'.msgTag = mtag) ∧
    (∀ e, Slacktor.lookup s.slacktor.entries id = some e → e.tag ≠ tag →
      s.get_local u tag id = none) ∧
    (∀ r, s.get_local u tag id = some r → r.entry.tag = tag) := by
  refine ⟨?_, ?_, ?_, ?_⟩
  · intro hget hne
    unfold OldSystem.get_actor
    rw [hget]
    dsimp only
    rw [if_neg hne]
  · intro h' hh
    unfold OldSystem.get_actor at hh
    cases hget : OldSystem.Actors.get? actors sid with
    | none => rw [hget] at hh; cases hh
    | some h0 =>
      rw [hget] at hh
      dsimp only at hh
      by_cases ht : h0.msgTag = mtag
      · rw [if_pos ht] at hh
        cases hh
        exact ht
      · rw [if_neg ht] at hh
        cases hh
  · intro e hl hne
    unfold State.get_local
    split
    · rfl
    · unfold Slacktor.get
      rw [hl]
      dsimp only
      rw [if_neg hne]
      rfl
  · intro r hr
    unfold State.get_local at hr
    split at hr
    · cases hr
    · unfold Slacktor.get at hr
      cases hl : Slacktor.lookup s.slacktor.entries id with
      | none => rw [hl] at hr; cases hr
      | some e =>
        rw [hl] at hr
        dsimp only at hr
        by_cases ht : e.tag = tag
        · rw [if_pos ht] at hr
          have h2 : some (⟨e, id⟩ : LocalRef) = some r := hr
          rw [(Option.some.inj h2).symm]
          exact ht
        · rw [if_neg ht] at hr
          cases hr

/-- Witness for C8 at a concrete type mismatch (stored type tag 1,
requested type tag 2). -/
theorem typed_retrieval_type_safe_witness :
    OldSystem.get_actor [("a", ⟨1, 5⟩)] 2 "a" = none ∧
    (⟨⟨1, [(0, ⟨1, 5⟩)]⟩, []⟩ : State).get_local 9 2 0 = none :=
  ⟨(typed_retrieval_type_safe [("a", ⟨1, 5⟩)] "a" ⟨1, 5⟩ 2 9
      ⟨⟨1, [(0, ⟨1, 5⟩)]⟩, []⟩ 2 0).1 rfl (by decide),
   (typed_retrieval_type_safe [("a", ⟨1, 5⟩)] "a" ⟨1, 5⟩ 2 9
      ⟨⟨1, [(0, ⟨1, 5⟩)]⟩, []⟩ 2 0).2.2.1 ⟨1, 5⟩ rfl (by decide)⟩

end Fluxion

namespace ForeignMessenger

/-- C10: when nobody is ready to receive foreign messages
(`can_send_foreign()` is false), `send_message_foreign` returns `Ok(())`
without handing anything to `send_raw_foreign`, and the caller's
response one-shot is never signalled — the message is silently
discarded despite the successful return value. -/
theorem no_listener_silent_discard (fr : Option Unit) (sendRawOk : Bool)
    (msg : DynValue) (hasResponder : Bool) (respTag : Nat)
    (foreignReply : Option DynValue) (h : can_send_foreign fr = false) :
    send_message_foreign (can_send_foreign fr) sendRawOk msg hasResponder
      respTag foreignReply = ⟨.ok (), none, false⟩ := by
  rw [h]
  rfl

/-- Witness for C10: the foreign receiver is still in its slot (nobody
called `get_foreign`), a responder is supplied, and the call reports
success while sending nothing and signalling nobody. -/
theorem no_listener_silent_discard_witness :
    can_send_foreign (some ()) = false ∧
    send_message_foreign (can_send_foreign (some ())) true ⟨1, 2⟩ true 3
      (some ⟨3, 4⟩) = ⟨.ok (), none, false⟩ :=
  ⟨rfl, no_listener_silent_discard (some ()) true ⟨1, 2⟩ true 3
    (some ⟨3, 4⟩) rfl⟩

end ForeignMessenger

namespace Supervisor

/-- C3 counterexample: start a supervisor with one message already in
its mailbox and a shutdown signal pending on the broadcast channel
(`System::shutdown` has been called).  The `tokio::select!` may pick
the shutdown branch first, and then the loop exits with the previously
enqueued message never handled — shutdown is a preemption, not an
ordinary mailbox envelope processed after earlier messages. -/
theorem shutdown_preempts_mailbox_counterexample :
    Run ⟨[1], true, [], false⟩ ⟨[1], false, [], true⟩ ∧
    (⟨[1], false, [], true⟩ : SupState).exited = true ∧
    (⟨[1], false, [], true⟩ : SupState).handled ≠ [1] :=
  ⟨.tail (.refl _) (.shutdown _ rfl rfl), rfl, by decide⟩

/-- One supervisor step preserves handled-plus-pending and only ever
extends the handled sequence at its end. -/
theorem step_handled_mailbox {t u : SupState} (h : Step t u) :
    u.handled ++ u.mailbox = t.handled ++ t.mailbox ∧
    t.handled <+: u.handled := by
  cases h with
  | shutdown hpend hex => exact ⟨rfl, List.prefix_refl _⟩
  | message m rest hmail hex =>
    constructor
    · dsimp only
      rw [hmail]
      simp
    · exact List.prefix_append _ _

/-- C3 (amended): the supervisor does consume its mailbox in strict
arrival order — along every run, the handled sequence concatenated with
the remaining mailbox is invariant, so messages are handled exactly in
arrival order — but the shutdown request arrives on a separate
broadcast channel selected concurrently with the mailbox, so it can
preempt: for any mailbox content, there is a run in which the
supervisor exits immediately with every already-enqueued message left
unhandled. -/
theorem supervisor_fifo_but_shutdown_preempts :
    (∀ s t : SupState, Run s t →
      t.handled ++ t.mailbox = s.handled ++ s.mailbox ∧
      s.handled <+: t.handled) ∧
    (∀ ms : List Nat, ∃ t : SupState,
      Run ⟨ms, true, [], false⟩ t ∧ t.exited = true ∧ t.handled = []) := by
  constructor
  · intro s t hrun
    induction hrun with
    | refl => exact ⟨rfl, List.prefix_refl _⟩
    | tail hst hstep ih =>
      obtain ⟨hinv, hpre⟩ := ih
      obtain ⟨hinv2, hpre2⟩ := step_handled_mailbox hstep
      exact ⟨hinv2.trans hinv, hpre.trans hpre2⟩
  · intro ms
    exact ⟨⟨ms, false, [], true⟩, .tail (.refl _) (.shutdown _ rfl rfl),
      rfl, rfl⟩

/-- Witness for the amended C3: a concrete run of one message step
satisfies the order invariant. -/
theorem supervisor_fifo_but_shutdown_preempts_witness :
    (⟨[], true, [1], false⟩ : SupState).handled ++
        (⟨[], true, [1], false⟩ : SupState).mailbox =
      (⟨[1], true, [], false⟩ : SupState).handled ++
        (⟨[1], true, [], false⟩ : SupState).mailbox ∧
    (⟨[1], true, [], false⟩ : SupState).handled <+:
      (⟨[], true, [1], false⟩ : SupState).handled :=
  supervisor_fifo_but_shutdown_preempts.1 ⟨[1], true, [], false⟩
    ⟨[], true, [1], false⟩ (.tail (.refl _) (.message _ 1 [] rfl rfl))

end Supervisor
